import Mathlib

/-!
Verification of the synchronous HTTP connection layer of a SurrealDB client
(`src/surrealdb/connections/blocking_http.py`, class
`BlockingHttpSurrealConnection`).

The embedding models:
  * decoded CBOR values (`Val`) and Python dictionaries as insertion-ordered
    association lists (`Dict`) with Python assignment semantics (`dictSet`:
    replace in place when the key exists, append otherwise);
  * the connection object (`BlockingHttpSurrealConnection`) with its mutable
    session fields `token`, `id`, `namespace` (renamed `namespace_`, a Lean
    keyword), `database` and `vars`;
  * the transport dispatch `_send` parameterised by an externally supplied
    `DispatchOutcome` (the network and the server are collaborators), and the
    header construction `sendHeaders` mirroring the truthiness tests
    `if self.token: ...`, `if self.namespace: ...`, `if self.database: ...`;
  * each operation method as a state transition returning the new connection
    state, the list of envelopes handed to the transport, the post-call
    contents of a caller-supplied parameter dictionary (the methods mutate it
    in place), and the call outcome.

The correlation identifier produced by `uuid.uuid4()` inside `RequestMessage`
is modelled as an externally supplied fresh string, and the CBOR codec is the
out-of-scope collaborator the spec names.
-/

namespace SurrealDB

/-- A decoded value (the image of the CBOR codec): enough structure for the
payload shapes the connection layer inspects. -/
inductive Val where
  | nil
  | str (s : String)
  | int (n : Int)
  | arr (xs : List Val)
  | obj (fields : List (String × Val))

/-- A Python dictionary with string keys, as an insertion-ordered association
list with unique keys maintained by `dictSet`. -/
abbrev Dict := List (String × Val)

/-- Python `d[k] = v`: replace the value at the existing entry for `k`,
keeping its position, or append a new entry at the end. -/
def dictSet : Dict → String → Val → Dict
  | [], k, v => [(k, v)]
  | kv :: rest, k, v =>
      if kv.1 = k then (k, v) :: rest else kv :: dictSet rest k v

/-- Python `d.get(k)` / `k in d`: the value at the first entry for `k`. -/
def dictGet : Dict → String → Option Val
  | [], _ => none
  | kv :: rest, k => if kv.1 = k then some kv.2 else dictGet rest k

/-- Python `d.pop(k)` minus the raised `KeyError`: the dictionary with the
entry for `k` removed. -/
def dictRemove (d : Dict) (k : String) : Dict :=
  d.filter (fun kv => kv.1 != k)

/-- The loop `for key, value in self.vars.items(): vars[key] = value` of
`query` / `query_raw`: write every session-bound variable into the call
parameter dictionary, in insertion order. -/
def mergeVars : Dict → Dict → Dict
  | p, [] => p
  | p, kv :: rest => mergeVars (dictSet p kv.1 kv.2) rest

/-- Field lookup on a decoded payload: `payload["k"]` when the payload is a
dictionary, absent otherwise. -/
def objGet (v : Val) (k : String) : Option Val :=
  match v with
  | Val.obj fields => dictGet fields k
  | _ => none

/-- A `thing` argument: a plain string, a structured `RecordID` (table name
plus identifier) or a bare `Table` reference. `RecordID` and `Table` are the
identifier collaborator types; the connection layer only constructs them. -/
inductive Thing where
  | str (s : String)
  | recordId (table_name identifier : String)
  | table (name : String)
  deriving DecidableEq

/-- The RPC verbs used by the modelled operations (`RequestMethod` enum). -/
inductive RequestMethod where
  | QUERY | CREATE | DELETE | USE | AUTHENTICATE | INVALIDATE
  deriving DecidableEq

/-- The keyword arguments each operation hands to `RequestMessage`. -/
inductive EnvelopeArgs where
  | queryArgs (query : String) (params : Dict)
  | createArgs (collection : Thing) (data : Option Val)
  | deleteArgs (record_id : Thing)
  | useArgs (ns db : String)
  | authenticateArgs (token : String)
  | invalidateArgs

/-- The RPC envelope: correlation id, method, and the method-specific
arguments. The id produced by `uuid.uuid4()` inside the `RequestMessage`
constructor is modelled as an externally supplied fresh string. -/
structure RequestMessage where
  id : String
  method : RequestMethod
  args : EnvelopeArgs

/-- The session state of `BlockingHttpSurrealConnection.__init__`: the
endpoint URL (the derived `raw_url` / `host` / `port` fields are read by no
modelled operation and are omitted), the optional bearer `token`, the
correlation id `id` of the most recently built envelope, the optional
`namespace` (field renamed `namespace_`: `namespace` is a Lean keyword) and
`database`, and the bound session variables `vars`. -/
structure BlockingHttpSurrealConnection where
  url : String
  token : Option String
  id : String
  namespace_ : Option String
  database : Option String
  vars : Dict

/-- Constructor `__init__(url)`: no token, no namespace, no database, empty `vars`; the
initial `self.id = str(uuid.uuid4())` is the supplied `uuid`. -/
def init (url uuid : String) : BlockingHttpSurrealConnection :=
  { url := url, token := none, id := uuid,
    namespace_ := none, database := none, vars := [] }

/-- Python truthiness of an `Optional[str]` field: `None` and the empty
string are falsy. -/
def truthy : Option String → Bool
  | none => false
  | some s => s ≠ ""

/-- The header construction of `_send`: fixed `Accept` / `Content-Type` for
the CBOR codec, then `Authorization` iff `self.token` is truthy, then
`Surreal-NS` iff `self.namespace` is truthy, then `Surreal-DB` iff
`self.database` is truthy — three independent tests. -/
def sendHeaders (conn : BlockingHttpSurrealConnection) :
    List (String × String) :=
  let headers := [("Accept", "application/cbor"),
                  ("Content-Type", "application/cbor")]
  let headers := if truthy conn.token
    then headers ++ [("Authorization", "Bearer " ++ conn.token.getD "")]
    else headers
  let headers := if truthy conn.namespace_
    then headers ++ [("Surreal-NS", conn.namespace_.getD "")]
    else headers
  let headers := if truthy conn.database
    then headers ++ [("Surreal-DB", conn.database.getD "")]
    else headers
  headers

/-- How one call can fail. `transport` covers a network failure or a
non-success HTTP status (`raise_for_status`); `remote` is the structured
server-side error raised by the response validator, carrying the code and
message fields of the error object and the human-readable operation label;
`protocol` is a response with neither error nor result; `keyError` and
`indexError` are the uncaught Python exceptions of `dict.pop` on a missing
key and of indexing an unexpected result shape. -/
inductive CallError where
  | transport
  | remote (code : Option Val) (message : Option Val) (operation : String)
  | protocol (operation : String)
  | keyError
  | indexError

/-- What the transport and server do for one dispatched request: either the
blocking POST fails (network error or non-2xx status), or it yields a decoded
response payload. The server is a collaborator, so the outcome is a
parameter of each modelled call. -/
inductive DispatchOutcome where
  | transportFail
  | response (payload : Val)

/-- Modelled from the spec: `UtilsMixin.check_response_for_error` (the
response validator), whose source is outside `src/`. Per the spec, it fails
with a `RemoteError` carrying the server code and message and the operation
label when the decoded payload carries an `error` object, and returns
normally otherwise. -/
def check_response_for_error (payload : Val) (operation : String) :
    Option CallError :=
  match objGet payload "error" with
  | some err =>
      some (CallError.remote (objGet err "code") (objGet err "message")
        operation)
  | none => none

/-- Modelled from the spec: `UtilsMixin.check_response_for_result`, whose
source is outside `src/`. Per the spec, it fails with a `ProtocolError` when
the decoded payload has no `result` field, and returns normally otherwise. -/
def check_response_for_result (payload : Val) (operation : String) :
    Option CallError :=
  match objGet payload "result" with
  | some _ => none
  | none => some (CallError.protocol operation)

/-- Dispatcher `_send`: encode the envelope (codec collaborator), build the headers
(`sendHeaders`), POST, `raise_for_status`, decode, and unless `bypass` run
the response validator. The encoded bytes and the headers do not change the
decoded result, so the function returns the validated payload or the
failure. -/
def _send (conn : BlockingHttpSurrealConnection) (message : RequestMessage)
    (operation : String) (bypass : Bool) (outcome : DispatchOutcome) :
    Except CallError Val :=
  match outcome with
  | DispatchOutcome.transportFail => Except.error CallError.transport
  | DispatchOutcome.response payload =>
      if bypass then Except.ok payload
      else
        match check_response_for_error payload operation with
        | some e => Except.error e
        | none => Except.ok payload

/-- The observable effect of one operation call: the connection state after
the call, the envelopes handed to `_send`, the post-call contents of the
caller-supplied parameter dictionary when the caller passed one (`query` and
`query_raw` write the session variables into it in place), and the returned
value or the raised failure. -/
structure CallResult (α : Type) where
  state : BlockingHttpSurrealConnection
  sent : List RequestMessage
  callerVars : Option Dict
  outcome : Except CallError α

/-- Whether the call raised. -/
def callFailed {α : Type} (r : CallResult α) : Bool :=
  match r.outcome with
  | Except.error _ => true
  | Except.ok _ => false

/-- Method `authenticate(token)`: the source assigns `self.token = token` first, then
builds the envelope, assigns `self.id = message.id`, and dispatches. The token
assignment precedes the dispatch, so the new token is kept on every outcome,
success or failure. -/
def authenticate (conn : BlockingHttpSurrealConnection) (token fid : String)
    (outcome : DispatchOutcome) : CallResult Unit :=
  let message : RequestMessage :=
    ⟨fid, RequestMethod.AUTHENTICATE, EnvelopeArgs.authenticateArgs token⟩
  let conn1 := { conn with token := some token, id := fid }
  { state := conn1
    sent := [message]
    callerVars := none
    outcome :=
      match _send conn1 message "authenticating" false outcome with
      | Except.error e => Except.error e
      | Except.ok _ => Except.ok () }

/-- Method `invalidate()`: build the envelope, assign `self.id`, dispatch, and only
after a successful dispatch clear `self.token`; a raised dispatch leaves the
token as it was. -/
def invalidate (conn : BlockingHttpSurrealConnection) (fid : String)
    (outcome : DispatchOutcome) : CallResult Unit :=
  let message : RequestMessage :=
    ⟨fid, RequestMethod.INVALIDATE, EnvelopeArgs.invalidateArgs⟩
  let conn1 := { conn with id := fid }
  let resp := _send conn1 message "invalidating" false outcome
  { state :=
      { conn1 with
        token := match resp with
          | Except.error _ => conn1.token
          | Except.ok _ => none }
    sent := [message]
    callerVars := none
    outcome :=
      match resp with
      | Except.error e => Except.error e
      | Except.ok _ => Except.ok () }

/-- Method `use(namespace, database)`: build the envelope, assign `self.id`,
dispatch, and only after a successful dispatch assign `self.namespace` and
`self.database`; a raised dispatch leaves both fields as they were (the
assignments come after the `_send` line). -/
def use (conn : BlockingHttpSurrealConnection) (ns db fid : String)
    (outcome : DispatchOutcome) : CallResult Unit :=
  let message : RequestMessage :=
    ⟨fid, RequestMethod.USE, EnvelopeArgs.useArgs ns db⟩
  let conn1 := { conn with id := fid }
  let resp := _send conn1 message "use" false outcome
  { state :=
      { conn1 with
        namespace_ := match resp with
          | Except.error _ => conn1.namespace_
          | Except.ok _ => some ns
        database := match resp with
          | Except.error _ => conn1.database
          | Except.ok _ => some db }
    sent := [message]
    callerVars := none
    outcome :=
      match resp with
      | Except.error e => Except.error e
      | Except.ok _ => Except.ok () }

/-- The projection `response["result"][0]["result"]` at the end of `query`:
absent when the payload has no `result` array with a first element carrying
its own `result` field (in which case the Python indexing raises). -/
def queryUnwrap (payload : Val) : Option Val :=
  match objGet payload "result" with
  | some (Val.arr (first :: _)) => objGet first "result"
  | _ => none

/-- Method `query(query, vars)`: default the parameter dictionary to empty when the
caller passed none, write every session variable into it in place
(`mergeVars`), build the envelope with the merged dictionary, assign
`self.id`, dispatch with validation, run `check_response_for_result`, and
return `response["result"][0]["result"]`. The merge happens before the
dispatch, so the caller-supplied dictionary holds the merged entries on every
outcome. -/
def query (conn : BlockingHttpSurrealConnection) (q : String)
    (vars : Option Dict) (fid : String) (outcome : DispatchOutcome) :
    CallResult Val :=
  let merged := mergeVars (vars.getD []) conn.vars
  let message : RequestMessage :=
    ⟨fid, RequestMethod.QUERY, EnvelopeArgs.queryArgs q merged⟩
  let conn1 := { conn with id := fid }
  { state := conn1
    sent := [message]
    callerVars := vars.map (fun _ => merged)
    outcome :=
      match _send conn1 message "query" false outcome with
      | Except.error e => Except.error e
      | Except.ok payload =>
          match check_response_for_result payload "query" with
          | some e => Except.error e
          | none =>
              match queryUnwrap payload with
              | some r => Except.ok r
              | none => Except.error CallError.indexError }

/-- Method `query_raw(query, params)`: the same defaulting and in-place session
variable merge as `query`, the same envelope, but the dispatch runs with
`bypass=True` and the decoded payload is returned unchecked and unchanged. -/
def query_raw (conn : BlockingHttpSurrealConnection) (q : String)
    (params : Option Dict) (fid : String) (outcome : DispatchOutcome) :
    CallResult Val :=
  let merged := mergeVars (params.getD []) conn.vars
  let message : RequestMessage :=
    ⟨fid, RequestMethod.QUERY, EnvelopeArgs.queryArgs q merged⟩
  let conn1 := { conn with id := fid }
  { state := conn1
    sent := [message]
    callerVars := params.map (fun _ => merged)
    outcome :=
      match _send conn1 message "query" true outcome with
      | Except.error e => Except.error e
      | Except.ok payload => Except.ok payload }

/-- Python `str.split(sep)` for a one-character separator, over the character
list: every occurrence of the separator splits, and empty segments are kept
(so the result always has one more segment than there are separators). -/
def splitChar (sep : Char) : List Char → List (List Char)
  | [] => [[]]
  | c :: rest =>
      if c = sep then [] :: splitChar sep rest
      else
        match splitChar sep rest with
        | [] => [[c]]
        | h :: t => (c :: h) :: t

/-- Python `thing.split(":")` as a function on strings. -/
def pySplit (s : String) (sep : Char) : List String :=
  (splitChar sep s.toList).map (fun cs => String.mk cs)

/-- The string normalization at the top of `create`: when the `thing`
argument is a string containing a colon (`":" in thing`), take
`buffer = thing.split(":")` and rebuild the argument as
`RecordID(table_name=buffer[0], identifier=buffer[1])`. Note `str.split`
splits on every separator occurrence, and only the first two segments are
used. -/
def createNormalize (thing : Thing) : Thing :=
  match thing with
  | Thing.str s =>
      if s.toList.contains ':' then
        let buffer := pySplit s ':'
        Thing.recordId (buffer.getD 0 "") (buffer.getD 1 "")
      else Thing.str s
  | t => t

/-- Method `create(thing, data)`: normalize a colon string argument to a `RecordID`,
build the envelope with `collection=thing` and `data=data`, assign `self.id`,
dispatch with validation, run `check_response_for_result`, and return
`response["result"]`. -/
def create (conn : BlockingHttpSurrealConnection) (thing : Thing)
    (data : Option Val) (fid : String) (outcome : DispatchOutcome) :
    CallResult Val :=
  let thing1 := createNormalize thing
  let message : RequestMessage :=
    ⟨fid, RequestMethod.CREATE, EnvelopeArgs.createArgs thing1 data⟩
  let conn1 := { conn with id := fid }
  { state := conn1
    sent := [message]
    callerVars := none
    outcome :=
      match _send conn1 message "create" false outcome with
      | Except.error e => Except.error e
      | Except.ok payload =>
          match check_response_for_result payload "create" with
          | some e => Except.error e
          | none =>
              match objGet payload "result" with
              | some r => Except.ok r
              | none => Except.error CallError.indexError }

/-- Method `delete(thing)`: no normalization of the argument — the envelope is built
directly with `record_id=thing`, then `self.id` is assigned, the message is
dispatched with validation, `check_response_for_result` runs, and
`response["result"]` is returned. -/
def delete (conn : BlockingHttpSurrealConnection) (thing : Thing)
    (fid : String) (outcome : DispatchOutcome) : CallResult Val :=
  let message : RequestMessage :=
    ⟨fid, RequestMethod.DELETE, EnvelopeArgs.deleteArgs thing⟩
  let conn1 := { conn with id := fid }
  { state := conn1
    sent := [message]
    callerVars := none
    outcome :=
      match _send conn1 message "delete" false outcome with
      | Except.error e => Except.error e
      | Except.ok payload =>
          match check_response_for_result payload "delete" with
          | some e => Except.error e
          | none =>
              match objGet payload "result" with
              | some r => Except.ok r
              | none => Except.error CallError.indexError }

/-- Method `let(key, value)` (named `let_`: `let` is a Lean keyword): the single
statement `self.vars[key] = value`. No envelope is built, nothing is
dispatched, and `self.id` is untouched. -/
def let_ (conn : BlockingHttpSurrealConnection) (key : String) (value : Val) :
    CallResult Unit :=
  { state := { conn with vars := dictSet conn.vars key value }
    sent := []
    callerVars := none
    outcome := Except.ok () }

/-- Method `unset(key)`: the single statement `self.vars.pop(key)`, which removes
the binding when present and raises a `KeyError` when absent. No envelope is
built, nothing is dispatched, and `self.id` is untouched. -/
def unset (conn : BlockingHttpSurrealConnection) (key : String) :
    CallResult Unit :=
  { state :=
      { conn with
        vars := match dictGet conn.vars key with
          | some _ => dictRemove conn.vars key
          | none => conn.vars }
    sent := []
    callerVars := none
    outcome :=
      match dictGet conn.vars key with
      | some _ => Except.ok ()
      | none => Except.error CallError.keyError }

/-- A connection as built by `__init__`, with a concrete endpoint and a
concrete initial correlation id: the base state of the concrete instances the
theorems below evaluate. -/
def connection0 : BlockingHttpSurrealConnection :=
  init "http://localhost:8000" "id-0"

/-- The state after `let("x", 1)` on a fresh connection (the spec scenario
P3). -/
def connVarX : BlockingHttpSurrealConnection :=
  (let_ connection0 "x" (Val.int 1)).state

/-- A connection holding a previously obtained token. -/
def connAuthed : BlockingHttpSurrealConnection :=
  { connection0 with token := some "oldtok" }

/-- A decoded response payload carrying a `result` and no `error`: the
validator accepts it. -/
def okPayload : Val := Val.obj [("result", Val.nil)]

/-- The state after a successful `use("ns1", "")` on a fresh connection: both
fields are assigned, yet only the namespace is truthy. -/
def stateNsOnly : BlockingHttpSurrealConnection :=
  (use connection0 "ns1" "" "id-1" (DispatchOutcome.response okPayload)).state

/-- A decoded response payload carrying an `error` object with a code and a
message, the shape of spec property P5. -/
def errPayload (c m : Val) : Val :=
  Val.obj [("error", Val.obj [("code", c), ("message", m)])]

theorem dictGet_dictSet_self (d : Dict) (k : String) (v : Val) :
    dictGet (dictSet d k v) k = some v := by
  induction d with
  | nil => simp [dictSet, dictGet]
  | cons kv rest ih =>
      by_cases h : kv.1 = k <;> simp [dictSet, dictGet, h, ih]

theorem dictGet_dictSet_ne (d : Dict) (k k' : String) (v : Val)
    (h : k ≠ k') : dictGet (dictSet d k v) k' = dictGet d k' := by
  induction d with
  | nil => simp [dictSet, dictGet, h]
  | cons kv rest ih =>
      by_cases hh : kv.1 = k
      · subst hh
        simp [dictSet, dictGet, h]
      · simp [dictSet, dictGet, hh, ih]

theorem mergeVars_get_of_not_mem (sv : Dict) (p : Dict) (k : String)
    (h : k ∉ sv.map Prod.fst) :
    dictGet (mergeVars p sv) k = dictGet p k := by
  induction sv generalizing p with
  | nil => rfl
  | cons kv rest ih =>
      simp only [List.map_cons, List.mem_cons, not_or] at h
      rw [mergeVars, ih _ h.2, dictGet_dictSet_ne]
      exact fun hk => h.1 (hk ▸ rfl)

theorem mergeVars_get_of_get (sv : Dict) :
    ∀ (p : Dict) (k : String) (v : Val),
      (sv.map Prod.fst).Nodup → dictGet sv k = some v →
      dictGet (mergeVars p sv) k = some v := by
  induction sv with
  | nil => intro p k v _ hget; simp [dictGet] at hget
  | cons kv rest ih =>
      intro p k v hnodup hget
      simp only [List.map_cons, List.nodup_cons] at hnodup
      by_cases h : kv.1 = k
      · rw [dictGet, if_pos h] at hget
        rw [mergeVars, mergeVars_get_of_not_mem rest _ k (h ▸ hnodup.1)]
        rw [h, dictGet_dictSet_self]
        exact hget
      · rw [dictGet, if_neg h] at hget
        rw [mergeVars]
        exact ih _ _ _ hnodup.2 hget

theorem splitChar_ne_nil (sep : Char) (l : List Char) :
    splitChar sep l ≠ [] := by
  cases l with
  | nil => simp [splitChar]
  | cons c rest =>
      by_cases h : c = sep
      · simp [splitChar, h]
      · simp only [splitChar, if_neg h]
        cases splitChar sep rest <;> simp

theorem splitChar_no_occurrence (sep : Char) (l : List Char)
    (h : sep ∉ l) : splitChar sep l = [l] := by
  induction l with
  | nil => rfl
  | cons c rest ih =>
      simp only [List.mem_cons, not_or] at h
      rw [splitChar, if_neg (fun hc => h.1 hc.symm), ih h.2]

theorem splitChar_append (sep : Char) (la rest : List Char)
    (h : sep ∉ la) :
    splitChar sep (la ++ sep :: rest) = la :: splitChar sep rest := by
  induction la with
  | nil => simp [splitChar]
  | cons c la' ih =>
      simp only [List.mem_cons, not_or] at h
      rw [List.cons_append, splitChar, if_neg (fun hc => h.1 hc.symm),
        ih h.2]

/-- C1 (confirmed): when the session-bound variables map the key `k` to `v`,
the parameter mapping placed in the transmitted `query` envelope maps `k` to
`v`, even when the caller-supplied mapping binds `k` to a different value —
the merge loop writes session-bound variables into the mapping after the
call-site parameters, so they override same-named call-site parameters. The
hypothesis that the session dictionary has unique keys is an invariant of the
`dict` type it models. -/
theorem query_session_vars_override (conn : BlockingHttpSurrealConnection)
    (q : String) (p : Dict) (k : String) (v : Val) (fid : String)
    (outcome : DispatchOutcome)
    (hnodup : (conn.vars.map Prod.fst).Nodup)
    (hk : dictGet conn.vars k = some v) :
    (query conn q (some p) fid outcome).sent =
      [⟨fid, RequestMethod.QUERY,
        EnvelopeArgs.queryArgs q (mergeVars p conn.vars)⟩] ∧
    dictGet (mergeVars p conn.vars) k = some v :=
  ⟨rfl, mergeVars_get_of_get conn.vars p k v hnodup hk⟩

/-- Witness for C1 at the spec scenario P3: after `let("x", 1)`, a
`query("RETURN $x", ("x": 2))` transmits `x = 1`. -/
theorem query_session_vars_override_witness :
    dictGet (mergeVars [("x", Val.int 2)] connVarX.vars) "x"
      = some (Val.int 1) :=
  (query_session_vars_override connVarX "RETURN $x" [("x", Val.int 2)] "x"
    (Val.int 1) "id-1" DispatchOutcome.transportFail (by decide) rfl).2

/-- C2 (corrected) counterexample: `delete` applies no normalization at the
call boundary — called with the string `person:1` it places the raw string in
the envelope, which is not the structured record reference with table
`person` and identifier `1` the claim requires. -/
theorem delete_colon_string_cex :
    (delete connection0 (Thing.str "person:1") "id-1"
        DispatchOutcome.transportFail).sent =
      [⟨"id-1", RequestMethod.DELETE,
        EnvelopeArgs.deleteArgs (Thing.str "person:1")⟩] ∧
    Thing.str "person:1" ≠ Thing.recordId "person" "1" :=
  ⟨rfl, by decide⟩

/-- C2 (corrected) amended: the string-with-colon normalization of a `thing`
argument is applied by `create` at the call boundary — `create("person:1")`
builds a structured reference with table `person` and identifier `1`, and
`create("person")` passes the bare name through — while `delete` passes its
argument through unchanged in both cases. -/
theorem normalization_in_create_not_delete
    (conn : BlockingHttpSurrealConnection) (data : Option Val) (fid : String)
    (outcome : DispatchOutcome) :
    (create conn (Thing.str "person:1") data fid outcome).sent =
      [⟨fid, RequestMethod.CREATE,
        EnvelopeArgs.createArgs (Thing.recordId "person" "1") data⟩] ∧
    (create conn (Thing.str "person") data fid outcome).sent =
      [⟨fid, RequestMethod.CREATE,
        EnvelopeArgs.createArgs (Thing.str "person") data⟩] ∧
    (delete conn (Thing.str "person:1") fid outcome).sent =
      [⟨fid, RequestMethod.DELETE,
        EnvelopeArgs.deleteArgs (Thing.str "person:1")⟩] ∧
    (delete conn (Thing.str "person") fid outcome).sent =
      [⟨fid, RequestMethod.DELETE,
        EnvelopeArgs.deleteArgs (Thing.str "person")⟩] :=
  ⟨rfl, rfl, rfl, rfl⟩

/-- C3 (corrected) counterexample: `create` with the string `a:b:c` builds a
record reference with identifier `b` — the segment between the first two
colons — not `b:c` as the claim (split once on the first colon) requires. -/
theorem create_split_discards_tail_cex :
    (create connection0 (Thing.str "a:b:c") none "id-1"
        DispatchOutcome.transportFail).sent =
      [⟨"id-1", RequestMethod.CREATE,
        EnvelopeArgs.createArgs (Thing.recordId "a" "b") none⟩] ∧
    Thing.recordId "a" "b" ≠ Thing.recordId "a" "b:c" :=
  ⟨rfl, by decide⟩

/-- C3 (corrected) amended: the normalization splits the string on every
colon and uses only the first two segments: a string `a:b` (one colon) maps
to table `a`, identifier `b`, and a string `a:b:c` also maps to table `a`,
identifier `b` — everything after the second colon is discarded, so only for
strings with a single colon does the result agree with a split on the first
colon. -/
theorem create_normalize_first_two_segments (la lb lc : List Char)
    (ha : ':' ∉ la) (hb : ':' ∉ lb) :
    createNormalize (Thing.str (String.mk (la ++ ':' :: lb)))
      = Thing.recordId (String.mk la) (String.mk lb) ∧
    createNormalize (Thing.str (String.mk (la ++ ':' :: (lb ++ ':' :: lc))))
      = Thing.recordId (String.mk la) (String.mk lb) := by
  have h1 : splitChar ':' (la ++ ':' :: lb) = [la, lb] := by
    rw [splitChar_append ':' la lb ha, splitChar_no_occurrence ':' lb hb]
  have h2 : splitChar ':' (la ++ ':' :: (lb ++ ':' :: lc))
      = la :: lb :: splitChar ':' lc := by
    rw [splitChar_append ':' la _ ha, splitChar_append ':' lb lc hb]
  constructor
  · simp [createNormalize, pySplit, String.toList, h1]
  · simp [createNormalize, pySplit, String.toList, h2]

/-- Witness for the C3 amendment at the counterexample input. -/
theorem create_normalize_first_two_segments_witness :
    createNormalize (Thing.str "a:b:c") = Thing.recordId "a" "b" := by
  have h := (create_normalize_first_two_segments ['a'] ['b'] ['c']
    (by decide) (by decide)).2
  exact h

/-- C4 (confirmed): a failing `use(ns, db)` call leaves the session namespace
and database both unchanged — never partially updated — and a successful one
sets both together, because the two assignments come after the dispatch line
and the dispatch raises before them on every failure. -/
theorem use_atomicity (conn : BlockingHttpSurrealConnection)
    (ns db fid : String) (outcome : DispatchOutcome) :
    (callFailed (use conn ns db fid outcome) = true →
      (use conn ns db fid outcome).state.namespace_ = conn.namespace_ ∧
      (use conn ns db fid outcome).state.database = conn.database) ∧
    (callFailed (use conn ns db fid outcome) = false →
      (use conn ns db fid outcome).state.namespace_ = some ns ∧
      (use conn ns db fid outcome).state.database = some db) := by
  cases outcome with
  | transportFail => simp [use, _send, callFailed]
  | response payload =>
      cases h : check_response_for_error payload "use" <;>
        simp [use, _send, callFailed, h]

/-- Witness for C4: a transport failure during `use` on a fresh connection
leaves both fields as they were. -/
theorem use_atomicity_witness :
    (use connection0 "n" "d" "id-1"
        DispatchOutcome.transportFail).state.namespace_
      = connection0.namespace_ ∧
    (use connection0 "n" "d" "id-1"
        DispatchOutcome.transportFail).state.database
      = connection0.database :=
  (use_atomicity connection0 "n" "d" "id-1"
    DispatchOutcome.transportFail).1 rfl

/-- C5 (corrected) counterexample: a failing `authenticate(token)` call does
not leave the session token unchanged — the source assigns
`self.token = token` before dispatching, so after a transport failure the
connection holds the new token, not the previous one. -/
theorem authenticate_failure_token_cex :
    connAuthed.token = some "oldtok" ∧
    callFailed (authenticate connAuthed "newtok" "id-1"
        DispatchOutcome.transportFail) = true ∧
    (authenticate connAuthed "newtok" "id-1"
        DispatchOutcome.transportFail).state.token = some "newtok" :=
  ⟨rfl, rfl, rfl⟩

/-- C5 (corrected) amended: `authenticate(token)` sets the session token to
the new token before dispatching, so the token is the new one after success
and failure alike; a failed `invalidate` leaves the token unchanged and a
successful one clears it. -/
theorem auth_token_mutation_amended (conn : BlockingHttpSurrealConnection)
    (tok fid : String) (outcome : DispatchOutcome) :
    (authenticate conn tok fid outcome).state.token = some tok ∧
    (callFailed (invalidate conn fid outcome) = true →
      (invalidate conn fid outcome).state.token = conn.token) ∧
    (callFailed (invalidate conn fid outcome) = false →
      (invalidate conn fid outcome).state.token = none) := by
  refine ⟨rfl, ?_, ?_⟩ <;>
  · cases outcome with
    | transportFail => simp [invalidate, _send, callFailed]
    | response payload =>
        cases h : check_response_for_error payload "invalidating" <;>
          simp [invalidate, _send, callFailed, h]

/-- Witness for the C5 amendment: with a transport failure, the token after
`authenticate` is the new one and the token after `invalidate` is the old
one. -/
theorem auth_token_mutation_amended_witness :
    (authenticate connAuthed "newtok" "id-1"
        DispatchOutcome.transportFail).state.token = some "newtok" ∧
    (invalidate connAuthed "id-2"
        DispatchOutcome.transportFail).state.token = connAuthed.token :=
  ⟨(auth_token_mutation_amended connAuthed "newtok" "id-1"
      DispatchOutcome.transportFail).1,
   (auth_token_mutation_amended connAuthed "newtok" "id-2"
      DispatchOutcome.transportFail).2.1 rfl⟩

/-- C6 (corrected) counterexample: after a successful `use("ns1", "")` both
session fields are set, yet the dispatched headers carry `Surreal-NS` and no
`Surreal-DB` — the two headers are attached by independent truthiness tests,
not by a joint both-set test as the claim states, and in this reachable state
exactly one header is sent. -/
theorem ns_db_headers_cex :
    stateNsOnly.namespace_ = some "ns1" ∧
    stateNsOnly.database = some "" ∧
    sendHeaders stateNsOnly =
      [("Accept", "application/cbor"), ("Content-Type", "application/cbor"),
       ("Surreal-NS", "ns1")] :=
  ⟨rfl, rfl, rfl⟩

/-- C6 (corrected) amended: the namespace and database headers are attached
independently — `Surreal-NS` is present iff the session namespace is set to a
non-empty string, and `Surreal-DB` is present iff the session database is set
to a non-empty string; neither test looks at the other field. -/
theorem ns_db_headers_independent (conn : BlockingHttpSurrealConnection)
    (w : String) :
    (truthy conn.namespace_ = true →
      ("Surreal-NS", conn.namespace_.getD "") ∈ sendHeaders conn) ∧
    (truthy conn.namespace_ = false →
      ("Surreal-NS", w) ∉ sendHeaders conn) ∧
    (truthy conn.database = true →
      ("Surreal-DB", conn.database.getD "") ∈ sendHeaders conn) ∧
    (truthy conn.database = false →
      ("Surreal-DB", w) ∉ sendHeaders conn) := by
  unfold sendHeaders
  cases truthy conn.token <;> cases truthy conn.namespace_ <;>
    cases truthy conn.database <;> simp

/-- Witness for the C6 amendment at the state reached by `use("ns1", "")`. -/
theorem ns_db_headers_independent_witness :
    (("Surreal-NS", "ns1") ∈ sendHeaders stateNsOnly) ∧
    (("Surreal-DB", "zzz") ∉ sendHeaders stateNsOnly) :=
  ⟨(ns_db_headers_independent stateNsOnly "zzz").1 rfl,
   (ns_db_headers_independent stateNsOnly "zzz").2.2.2 rfl⟩

/-- C7 (confirmed): a `query` call whose decoded payload is an object whose
`result` field is an array whose first statement object carries its own
`result` field returns exactly that inner value — the source indexes
`response["result"][0]["result"]` — while `query_raw` given the identical
decoded payload returns the whole payload verbatim. -/
theorem query_unwraps_raw_verbatim (conn : BlockingHttpSurrealConnection)
    (q : String) (vars : Option Dict) (fid : String) (r : Val)
    (rest : List Val) :
    (query conn q vars fid (DispatchOutcome.response
        (Val.obj [("result",
          Val.arr (Val.obj [("result", r)] :: rest))]))).outcome
      = Except.ok r ∧
    (query_raw conn q vars fid (DispatchOutcome.response
        (Val.obj [("result",
          Val.arr (Val.obj [("result", r)] :: rest))]))).outcome
      = Except.ok (Val.obj [("result",
          Val.arr (Val.obj [("result", r)] :: rest))]) :=
  ⟨rfl, rfl⟩

/-- C8 (confirmed): a decoded response carrying an error object with a code
and a message makes every modelled validated operation fail with the remote
failure carrying that code, that message and the operation label, while
`query_raw` — dispatched with `bypass=True` — returns the same payload
unmodified and raises nothing. -/
theorem remote_error_surfacing (conn : BlockingHttpSurrealConnection)
    (q : String) (vars : Option Dict) (thing : Thing) (data : Option Val)
    (ns db tok fid : String) (c m : Val) :
    (query conn q vars fid
        (DispatchOutcome.response (errPayload c m))).outcome
      = Except.error (CallError.remote (some c) (some m) "query") ∧
    (create conn thing data fid
        (DispatchOutcome.response (errPayload c m))).outcome
      = Except.error (CallError.remote (some c) (some m) "create") ∧
    (delete conn thing fid
        (DispatchOutcome.response (errPayload c m))).outcome
      = Except.error (CallError.remote (some c) (some m) "delete") ∧
    (use conn ns db fid
        (DispatchOutcome.response (errPayload c m))).outcome
      = Except.error (CallError.remote (some c) (some m) "use") ∧
    (authenticate conn tok fid
        (DispatchOutcome.response (errPayload c m))).outcome
      = Except.error (CallError.remote (some c) (some m) "authenticating") ∧
    (invalidate conn fid
        (DispatchOutcome.response (errPayload c m))).outcome
      = Except.error (CallError.remote (some c) (some m) "invalidating") ∧
    (query_raw conn q vars fid
        (DispatchOutcome.response (errPayload c m))).outcome
      = Except.ok (errPayload c m) :=
  ⟨rfl, rfl, rfl, rfl, rfl, rfl, rfl⟩

/-- C9 (corrected) counterexample: `let` and `unset` build no envelope, hand
nothing to the transport, and leave the correlation id untouched — contrary
to the claim that every operation-layer method, including them, builds and
dispatches an envelope and overwrites the id. -/
theorem let_unset_local_only_cex :
    (let_ connection0 "x" (Val.int 1)).sent = [] ∧
    (let_ connection0 "x" (Val.int 1)).state.id = connection0.id ∧
    (unset connVarX "x").sent = [] ∧
    (unset connVarX "x").state.id = connVarX.id :=
  ⟨rfl, rfl, rfl, rfl⟩

/-- C9 (corrected) amended: every modelled dispatching operation builds
exactly one envelope per call and overwrites the connection id with the new
envelope correlation id, on success and failure alike; `let` and `unset` are
the exception — they mutate only the bound-variables dictionary, build no
envelope, dispatch nothing, and leave the id unchanged. -/
theorem operation_layer_envelopes (conn : BlockingHttpSurrealConnection)
    (q : String) (p : Option Dict) (thing : Thing) (data : Option Val)
    (ns db tok k fid : String) (v : Val) (outcome : DispatchOutcome) :
    ((query conn q p fid outcome).sent.length = 1 ∧
     (query conn q p fid outcome).state.id = fid) ∧
    ((query_raw conn q p fid outcome).sent.length = 1 ∧
     (query_raw conn q p fid outcome).state.id = fid) ∧
    ((create conn thing data fid outcome).sent.length = 1 ∧
     (create conn thing data fid outcome).state.id = fid) ∧
    ((delete conn thing fid outcome).sent.length = 1 ∧
     (delete conn thing fid outcome).state.id = fid) ∧
    ((use conn ns db fid outcome).sent.length = 1 ∧
     (use conn ns db fid outcome).state.id = fid) ∧
    ((authenticate conn tok fid outcome).sent.length = 1 ∧
     (authenticate conn tok fid outcome).state.id = fid) ∧
    ((invalidate conn fid outcome).sent.length = 1 ∧
     (invalidate conn fid outcome).state.id = fid) ∧
    ((let_ conn k v).sent = [] ∧ (let_ conn k v).state.id = conn.id ∧
     (let_ conn k v).state.vars = dictSet conn.vars k v) ∧
    ((unset conn k).sent = [] ∧ (unset conn k).state.id = conn.id) :=
  ⟨⟨rfl, rfl⟩, ⟨rfl, rfl⟩, ⟨rfl, rfl⟩, ⟨rfl, rfl⟩, ⟨rfl, rfl⟩, ⟨rfl, rfl⟩,
   ⟨rfl, rfl⟩, ⟨rfl, rfl, rfl⟩, ⟨rfl, rfl⟩⟩

/-- C10 (confirmed): `query` and `query_raw` write every session-bound
variable into the caller-supplied parameter dictionary itself — the merge
loop mutates the passed-in dictionary in place — and because the loop runs
before the dispatch, the caller dictionary holds the merged entries on every
outcome, a failing dispatch included (the outcome is universally quantified
here, covering transport failures and error responses). -/
theorem query_mutates_caller_mapping (conn : BlockingHttpSurrealConnection)
    (q : String) (p : Dict) (fid : String) (outcome : DispatchOutcome)
    (k : String) (v : Val)
    (hnodup : (conn.vars.map Prod.fst).Nodup)
    (hk : dictGet conn.vars k = some v) :
    (query conn q (some p) fid outcome).callerVars
      = some (mergeVars p conn.vars) ∧
    (query_raw conn q (some p) fid outcome).callerVars
      = some (mergeVars p conn.vars) ∧
    dictGet (mergeVars p conn.vars) k = some v :=
  ⟨rfl, rfl, mergeVars_get_of_get conn.vars p k v hnodup hk⟩

/-- Witness for C10: with a transport failure, the caller dictionary passed
to `query` still holds the session binding for `x` afterwards. -/
theorem query_mutates_caller_mapping_witness :
    (query connVarX "RETURN $x" (some [("y", Val.int 9)]) "id-1"
        DispatchOutcome.transportFail).callerVars
      = some (mergeVars [("y", Val.int 9)] connVarX.vars) :=
  (query_mutates_caller_mapping connVarX "RETURN $x" [("y", Val.int 9)]
    "id-1" DispatchOutcome.transportFail "x" (Val.int 1)
    (by decide) rfl).1

end SurrealDB
